import Mathlib

/-!
Verification of the lmstudio-underpass reverse proxy.

The repository contains two variants of the proxy server: the plain
`server.js` (namespace `Server` below) and an enhanced variant (namespace
`Underpass`) that additionally scrubs proxy-identifying headers, intercepts
Cloudflare edge errors (status 520 to 530), classifies transport failures,
and admits loopback clients unconditionally.  Pure fragments of both are
embedded here and the specification's claims are settled against them.

Strings are modelled as Lean `String`s; the JavaScript string operations the
code uses (`startsWith`, `substring`, `includes`, `split`, `trim`,
`toLowerCase`) are given explicit structural models on the character lists so
that every definition is executable and kernel-reducible.  JavaScript numbers
appearing in the IP/CIDR arithmetic are modelled as `Option Int` with `none`
playing the role of NaN; the bitwise operators apply the ECMA-262 `ToInt32`
and `ToUint32` conversions explicitly.
-/

set_option maxRecDepth 100000

/-! ## JavaScript string primitives -/

/-- Boolean prefix test on character lists. -/
def charListHasPrefix : List Char → List Char → Bool
  | [], _ => true
  | _ :: _, [] => false
  | p :: ps, s :: ss => p == s && charListHasPrefix ps ss

/-- Model of JS `s.startsWith(p)`. -/
def jsStartsWith (s p : String) : Bool := charListHasPrefix p.data s.data

/-- Boolean substring test: does the first list occur contiguously in the second? -/
def charListHasInfix (p : List Char) : List Char → Bool
  | [] => charListHasPrefix p []
  | c :: rest => charListHasPrefix p (c :: rest) || charListHasInfix p rest

/-- Model of JS `s.includes(p)`. -/
def jsIncludes (s p : String) : Bool := charListHasInfix p.data s.data

/-- Model of JS `s.substring(n)` (ASCII strings, as used for the Bearer strip). -/
def jsSubstring (s : String) (n : Nat) : String := String.mk (s.data.drop n)

/-- Helper for `splitOnChar`: accumulates the current segment reversed. -/
def splitOnCharAux (sep : Char) : List Char → List Char → List String
  | [], acc => [String.mk acc.reverse]
  | c :: rest, acc =>
    if c == sep then String.mk acc.reverse :: splitOnCharAux sep rest []
    else splitOnCharAux sep rest (c :: acc)

/-- Model of JS `s.split(sep)` for a one-character separator. -/
def splitOnChar (sep : Char) (s : String) : List String := splitOnCharAux sep s.data []

/-- Model of JS `s.trim()`. -/
def trimStr (s : String) : String :=
  String.mk (((s.data.dropWhile Char.isWhitespace).reverse.dropWhile Char.isWhitespace).reverse)

/-- Model of JS `s.toLowerCase()` for ASCII header names. -/
def lowerStr (s : String) : String := String.mk (s.data.map Char.toLower)

/-- JS truthiness of an optional string: `undefined` and `""` are falsy. -/
def jsFalsyStr : Option String → Bool
  | none => true
  | some s => s == ""

/-- JS `a || b` on optional strings. -/
def jsOrS (a b : Option String) : Option String := if jsFalsyStr a then b else a

/-! ## JavaScript number primitives (for the IP/CIDR arithmetic) -/

/-- A JavaScript number as used by the CIDR mask computation: an integer, or
`none` standing for NaN. -/
abbrev JsNum := Option Int

/-- ECMA-262 ToInt32 on an integer. -/
def jsToInt32 (x : Int) : Int := (x + 2147483648) % 4294967296 - 2147483648

/-- ToInt32 on a JS number; NaN converts to 0. -/
def jsToInt32N : JsNum → Int
  | none => 0
  | some v => jsToInt32 v

/-- ToUint32 on a JS number, as a natural number; NaN converts to 0. -/
def jsToUint32N : JsNum → Nat
  | none => 0
  | some v => (v % 4294967296).toNat

/-- Value of a list of decimal digits. -/
def digitsVal (ds : List Char) : Nat :=
  ds.foldl (fun n c => n * 10 + (c.toNat - '0'.toNat)) 0

/-- Model of JS `parseInt(s, 10)` for the strings fed to it here: the leading
run of decimal digits, NaN (`none`) when there is none. -/
def parseIntJs (s : String) : JsNum :=
  let ds := s.data.takeWhile Char.isDigit
  if ds.isEmpty then none else some (digitsVal ds)

/-- JS `x << 8`: the operand passes through ToInt32 (so NaN becomes 0) and the
result is again an int32. -/
def jsShl8 (x : JsNum) : JsNum := some (jsToInt32 (jsToInt32N x * 256))

/-- JS `+` on (integer) numbers; NaN propagates. -/
def jsAdd : JsNum → JsNum → JsNum
  | some a, some b => some (a + b)
  | _, _ => none

/-- JS `-` on (integer) numbers; NaN propagates. -/
def jsSub : JsNum → JsNum → JsNum
  | some a, some b => some (a - b)
  | _, _ => none

/-- JS `2 ** e` as used for the CIDR mask: exact for a nonnegative exponent.
A negative or NaN exponent is collapsed to NaN; after the subsequent `- 1` and
`~` this produces the same mask (-1) as the fractional JS value does for every
prefix length below 1075, which covers all inputs of interest. -/
def jsPow2 : JsNum → JsNum
  | none => none
  | some e => if e < 0 then none else some (2 ^ e.toNat)

/-- JS `~x`: bitwise not of ToInt32 of the operand. -/
def jsBitNot (x : JsNum) : Int := -(jsToInt32N x) - 1

/-- Bitwise and of the low `fuel` bits of two naturals (structural, so the
kernel can evaluate it). -/
def natAndBits : Nat → Nat → Nat → Nat
  | 0, _, _ => 0
  | fuel + 1, a, b =>
    (if a % 2 = 1 && b % 2 = 1 then 1 else 0) + 2 * natAndBits fuel (a / 2) (b / 2)

/-- JS `a & b`: both operands pass through ToInt32, the 32 bit patterns are
anded, and the result is read back as an int32. -/
def jsBitAnd (a b : Int) : Int :=
  jsToInt32 (Int.ofNat (natAndBits 32 (jsToUint32N (some a)) (jsToUint32N (some b))))

/-! ## Credential validator (identical in both server variants) -/

/-- Result of the validateApiKey middleware: pass the request on, or answer
with an HTTP status and a JSON error body. -/
inductive ValidationResult where
  | ok
  | reject (status : Nat) (error : String) (message : String)
deriving DecidableEq, Repr

/-- Candidate credential: the Authorization header value with a leading
literal "Bearer " stripped when present. -/
def candidateKey (header : String) : String :=
  if jsStartsWith header "Bearer " then jsSubstring header 7 else header

/-- Credential validation middleware `validateApiKey`, from both server
variants: decide the Authorization header value against the configured API
key.  An absent header is `none`; a present header carries its value. -/
def validateApiKey (authHeader : Option String) (apiKey : String) : ValidationResult :=
  if jsFalsyStr authHeader then
    .reject 401 "Missing authorization header"
      "Please provide an API key in the Authorization header"
  else
    let providedKey := candidateKey (authHeader.getD "")
    if !(jsStartsWith providedKey "sk-") then
      .reject 401 "Invalid API key format" "API key must start with \"sk-\""
    else if providedKey.length < 10 then
      .reject 401 "Invalid API key format" "API key is too short"
    else if providedKey ≠ apiKey then
      .reject 401 "Invalid API key" "The provided API key is not valid"
    else
      .ok

/-! ## IP admission filter -/

/-- Helper `ipToNumber` from both server variants: convert a dotted-quad
string to its unsigned 32-bit value, faithful to
`ip.split('.').reduce((acc, octet) => (acc << 8) + parseInt(octet, 10), 0) >>> 0`. -/
def ipToNumber (ip : String) : Nat :=
  jsToUint32N
    ((splitOnChar '.' ip).foldl (fun acc octet => jsAdd (jsShl8 acc) (parseIntJs octet))
      (some 0))

/-- One allow-list entry test, the callback of `ALLOWED_IPS.some` shared by
both server variants: an entry containing "/" is treated as CIDR and compared
by masked 32-bit integers; a plain entry matches by string equality or as a
textual prefix of the client address. -/
def entryMatches (clientIp allowedIp : String) : Bool :=
  if jsIncludes allowedIp "/" then
    let parts := splitOnChar '/' allowedIp
    let network := parts.headD ""
    let prefixLen := (parts.drop 1).headD ""
    let mask := jsBitNot (jsSub (jsPow2 (jsSub (some 32) (parseIntJs prefixLen))) (some 1))
    let networkNum := jsBitAnd (Int.ofNat (ipToNumber network)) mask
    let clientNum := jsBitAnd (Int.ofNat (ipToNumber clientIp)) mask
    networkNum == clientNum
  else
    clientIp == allowedIp || jsStartsWith clientIp allowedIp

/-- Model of `ALLOWED_IPS.some(allowedIp => ...)`. -/
def isAllowedIp (allowedIps : List String) (clientIp : String) : Bool :=
  allowedIps.any (fun allowedIp => entryMatches clientIp allowedIp)

/-- Loopback classification from the enhanced server variant's ipRestriction. -/
def isLocalhost (clientIp : String) : Bool :=
  clientIp == "127.0.0.1" || clientIp == "::1" || clientIp == "::ffff:127.0.0.1" ||
  jsStartsWith clientIp "127." || clientIp == "localhost"

/-- Result of the admission middleware: pass the request on, or answer with an
HTTP status and a JSON error string. -/
inductive Admission where
  | next
  | reject (status : Nat) (error : String)
deriving DecidableEq, Repr

namespace Server

/-- Admission decision of server.js ipRestriction, applied to the resolved
client address (`none` models an undetermined address). -/
def ipRestriction (allowedIps : List String) (clientIp : Option String) : Admission :=
  if allowedIps.isEmpty then .next
  else if jsFalsyStr clientIp then .reject 403 "Unable to determine client IP"
  else if isAllowedIp allowedIps (clientIp.getD "") then .next
  else .reject 403 "IP address not allowed"

end Server

namespace Underpass

/-- Admission decision of the enhanced server variant's ipRestriction, which
additionally always admits loopback addresses (cloudflared relays external
traffic through localhost, so IP filtering cannot see the true origin). -/
def ipRestriction (allowedIps : List String) (clientIp : Option String) : Admission :=
  if allowedIps.isEmpty then .next
  else if jsFalsyStr clientIp then .reject 403 "Unable to determine client IP"
  else if isLocalhost (clientIp.getD "") then .next
  else if isAllowedIp allowedIps (clientIp.getD "") then .next
  else .reject 403 "IP address not allowed"

end Underpass

/-! ## Forward-request header scrubbing (enhanced variant, onProxyReq) -/

/-- Configured upstream base URL (source default of LM_STUDIO_URL). -/
def LM_STUDIO_URL : String := "http://192.168.50.193:5595"

/-- Host portion of a parsed http or https URL, as `new URL(u).host` yields it
for the plain base URLs used as upstream targets; `none` when parsing fails,
matching the try/catch around the Host overwrite in onProxyReq. -/
def parseUrlHost (url : String) : Option String :=
  if jsStartsWith url "http://" then
    some (String.mk ((jsSubstring url 7).data.takeWhile (fun c => c != '/')))
  else if jsStartsWith url "https://" then
    some (String.mk ((jsSubstring url 8).data.takeWhile (fun c => c != '/')))
  else none

/-- Node `proxyReq.removeHeader(name)`: header names are matched
case-insensitively. -/
def removeHeader (n : String) (hs : List (String × String)) : List (String × String) :=
  hs.filter (fun p => lowerStr p.1 != lowerStr n)

/-- Node `proxyReq.setHeader(name, value)`: replaces any entry with the same
case-insensitive name. -/
def setHeader (n v : String) (hs : List (String × String)) : List (String × String) :=
  removeHeader n hs ++ [(n, v)]

/-- Node `getHeader(name)` on a header list: first case-insensitive match. -/
def getHeader (n : String) (hs : List (String × String)) : Option String :=
  (hs.find? (fun p => lowerStr p.1 == lowerStr n)).map (fun p => p.2)

/-- Header effect of onProxyReq in the enhanced server variant: remove the
proxy-identifying request headers and the inbound Authorization header, then
overwrite Host with the upstream URL's host (kept unchanged if URL parsing
fails, per the try/catch). -/
def onProxyReqHeaders (upstreamUrl : String) (hs : List (String × String)) :
    List (String × String) :=
  let scrubbed :=
    removeHeader "authorization"
      (removeHeader "cf-ray"
        (removeHeader "cf-connecting-ip"
          (removeHeader "x-real-ip"
            (removeHeader "x-forwarded-host"
              (removeHeader "x-forwarded-proto"
                (removeHeader "x-forwarded-for" hs))))))
  match parseUrlHost upstreamUrl with
  | some host => setHeader "Host" host scrubbed
  | none => scrubbed

/-- Names the forwarded request must never carry (lower-case forms). -/
def scrubbedHeaderNames : List String :=
  ["authorization", "x-forwarded-for", "x-forwarded-proto", "x-forwarded-host",
   "x-real-ip", "cf-connecting-ip", "cf-ray"]

/-! ## Response handling (enhanced variant, onProxyRes and onError) -/

/-- Configured listening port (source default of PORT). -/
def PORT : Nat := 3000

/-- JSON error payload shape used by the gateway translations; `none` models
an absent key, an empty troubleshooting list models an absent key. -/
structure ErrorPayload where
  error : String
  message : String
  details : Option String := none
  troubleshooting : List (String × String) := []
  errorCode : Option String := none
deriving DecidableEq, Repr

/-- Body relayed to the caller: the upstream bytes verbatim, or a synthesized
JSON error object. -/
inductive BodyOut where
  | raw (body : String)
  | json (payload : ErrorPayload)
deriving DecidableEq, Repr

/-- Helper getCloudflareErrorDescription from the enhanced variant. -/
def getCloudflareErrorDescription (statusCode : Nat) : String :=
  if statusCode = 520 then "Web Server Returned an Unknown Error"
  else if statusCode = 521 then "Web Server Is Down"
  else if statusCode = 522 then "Connection Timed Out"
  else if statusCode = 523 then "Origin Is Unreachable"
  else if statusCode = 524 then "A Timeout Occurred"
  else if statusCode = 525 then "SSL Handshake Failed"
  else if statusCode = 526 then "Invalid SSL Certificate"
  else if statusCode = 527 then "Railgun Error"
  else if statusCode = 530 then "Origin DNS Error"
  else "Unknown Cloudflare Error"

/-- Marker test on the buffered body identifying the edge network's own error
page, from onProxyRes. -/
def isCloudflareErrorBody (body : String) : Bool :=
  jsIncludes body "Cloudflare" ||
  jsIncludes body "cf-wrapper" ||
  jsIncludes body "cf-alert" ||
  jsIncludes body "Cloudflare Tunnel error" ||
  jsIncludes body "A timeout occurred" ||
  jsIncludes body "Error code 524" ||
  jsIncludes body "Error code 522" ||
  jsIncludes body "Error code 530"

/-- Message of the synthesized Bad Gateway payload: the ternary on the 524
sub-code in onProxyRes. -/
def cfErrorMessage (statusCode : Nat) : String :=
  if statusCode = 524 then "Request timed out - Cloudflare timed out waiting for response"
  else "Cloudflare tunnel cannot reach the origin server"

/-- Troubleshooting object of the synthesized Bad Gateway payload. -/
def cfTroubleshooting (statusCode : Nat) : List (String × String) :=
  if statusCode = 524 then
    [("Check LM Studio", "Verify LM Studio is running and responsive"),
     ("Check response time", "LM Studio may be taking too long to process the request"),
     ("Try simpler request", "The request might be too complex or large"),
     ("Check network", "Network latency might be causing timeouts"),
     ("Increase timeout", "Consider increasing Cloudflare timeout settings")]
  else
    [("Check local server", "Verify the server is running: npm start"),
     ("Check tunnel", "Ensure cloudflared tunnel is running: cloudflared tunnel run lmstudio-tunnel"),
     ("Check port", "Verify tunnel config points to: http://localhost:" ++ toString PORT),
     ("Test locally", "Test server directly: curl http://localhost:" ++ toString PORT ++ "/health")]

/-- JS `delete obj[key]` on a header object (exact key match). -/
def deleteKey (k : String) (hs : List (String × String)) : List (String × String) :=
  hs.filter (fun p => p.1 != k)

/-- Response-header scrub of the normal path in onProxyRes: the successive
deletes of the proxy-identifying response headers. -/
def onProxyResHeaders (hs : List (String × String)) : List (String × String) :=
  deleteKey "Via"
    (deleteKey "via"
      (deleteKey "x-forwarded-host"
        (deleteKey "x-forwarded-proto"
          (deleteKey "x-forwarded-for"
            (deleteKey "X-Powered-By"
              (deleteKey "x-powered-by" hs))))))

/-- Response-header keys deleted on the normal path. -/
def responseDeletedKeys : List String :=
  ["x-powered-by", "X-Powered-By", "x-forwarded-for", "x-forwarded-proto",
   "x-forwarded-host", "via", "Via"]

/-- Response translation of onProxyRes in the enhanced variant: a status in
the Cloudflare range 520 to 530 has its buffered body tested for edge error
markers and is replaced by a synthesized 502 JSON payload on a match,
otherwise relayed as received; every other status is relayed with the
proxy-identifying response headers removed and the body streamed unmodified. -/
def onProxyRes (statusCode : Nat) (headers : List (String × String)) (body : String) :
    Nat × List (String × String) × BodyOut :=
  if 520 ≤ statusCode ∧ statusCode ≤ 530 then
    if isCloudflareErrorBody body then
      (502, [("Content-Type", "application/json")],
        .json { error := "Bad Gateway",
                message := cfErrorMessage statusCode,
                details := some ("Cloudflare error " ++ toString statusCode ++ ": " ++
                  getCloudflareErrorDescription statusCode),
                troubleshooting := cfTroubleshooting statusCode })
    else (statusCode, headers, .raw body)
  else
    (statusCode, onProxyResHeaders headers, .raw body)

/-- Transport-failure translation of onError in the enhanced variant: the
error's code (absent codes are `none`) and message decide the caller-visible
response.  The generic branch carries no troubleshooting key, modelled by the
empty list. -/
def onError (code : Option String) (message : String) : Nat × ErrorPayload :=
  if code == some "ETIMEDOUT" || code == some "ECONNRESET" || jsIncludes message "timeout" then
    (504, { error := "Gateway Timeout",
            message := "Request to LM Studio timed out",
            details := some message,
            troubleshooting :=
              [("Check LM Studio", "Verify LM Studio is running and responsive"),
               ("Check response time", "LM Studio may be taking too long to process the request"),
               ("Try simpler request", "The request might be too complex or large"),
               ("Check network", "Network connectivity issues may be causing timeouts")] })
  else if code == some "ECONNREFUSED" then
    (502, { error := "Bad Gateway",
            message := "Unable to connect to LM Studio. Is it running?",
            details := some message,
            troubleshooting :=
              [("Check LM Studio", "Verify LM Studio is running at " ++ LM_STUDIO_URL),
               ("Test connection", "Test directly: curl " ++ LM_STUDIO_URL ++ "/v1/models"),
               ("Check URL", "Verify LM_STUDIO_URL in .env is correct: " ++ LM_STUDIO_URL)] })
  else
    (502, { error := "Bad Gateway",
            message := "Unable to connect to LM Studio",
            details := some message,
            errorCode := code })

/-! ## Request router composition (server.js) -/

/-- Pipeline stages of the router. -/
inductive Stage where
  | admission
  | credential
  | forwarding
deriving DecidableEq, Repr, BEq

/-- Per-request inputs consumed by the middleware chain: the header values the
client-address resolution reads, the framework-reported peer addresses, and
the Authorization header. -/
structure Req where
  method : String
  path : String
  cfConnectingIp : Option String
  reqIp : Option String
  xForwardedFor : Option String
  xRealIp : Option String
  connectionRemoteAddress : Option String
  socketRemoteAddress : Option String
  authorization : Option String
deriving DecidableEq, Repr

/-- Client-address resolution chain shared by the logging and admission
middleware of both variants: edge connecting IP, then the framework peer IP,
then the first trimmed segment of X-Forwarded-For, then X-Real-IP, then the
raw socket peers, first truthy value wins. -/
def resolveClientIp (r : Req) : Option String :=
  jsOrS r.cfConnectingIp
    (jsOrS r.reqIp
      (jsOrS
        (if jsFalsyStr r.xForwardedFor then none
         else some (trimStr ((splitOnChar ',' (r.xForwardedFor.getD "")).headD "")))
        (jsOrS r.xRealIp
          (jsOrS r.connectionRemoteAddress r.socketRemoteAddress))))

/-- Caller-visible outcome of a request, abstracting the forwarded exchange. -/
inductive Outcome where
  | health
  | rejected (status : Nat) (error : String)
  | forwarded
deriving DecidableEq, Repr

namespace Server

/-- Request handling composition of server.js: the health route answers GET
/health before any guard; every other request passes ipRestriction, then
validateApiKey, then the proxy middleware.  The result carries the outcome
and the list of pipeline stages that ran, in order. -/
def handle (allowedIps : List String) (apiKey : String) (r : Req) :
    Outcome × List Stage :=
  if r.method == "GET" && r.path == "/health" then (.health, [])
  else
    match ipRestriction allowedIps (resolveClientIp r) with
    | .reject status error => (.rejected status error, [.admission])
    | .next =>
      match validateApiKey r.authorization apiKey with
      | .reject status error _ => (.rejected status error, [.admission, .credential])
      | .ok => (.forwarded, [.admission, .credential, .forwarding])

end Server

/-! ## Theorems settling the claims -/

/-- C2: credential validation decides in the fixed order: missing header,
Bearer strip, "sk-" format check, length-10 check, then byte equality with
the configured secret; every rejection uses status 401 with the listed error
and message strings, and acceptance happens exactly when the candidate starts
with "sk-", has length at least 10, and equals the secret.  An empty header
value is falsy in JS and is treated as missing. -/
theorem validateApiKey_decision_order (s apiKey : String) :
    validateApiKey none apiKey =
      .reject 401 "Missing authorization header"
        "Please provide an API key in the Authorization header" ∧
    validateApiKey (some "") apiKey =
      .reject 401 "Missing authorization header"
        "Please provide an API key in the Authorization header" ∧
    (s ≠ "" →
      (jsStartsWith (candidateKey s) "sk-" = false →
        validateApiKey (some s) apiKey =
          .reject 401 "Invalid API key format" "API key must start with \"sk-\"") ∧
      (jsStartsWith (candidateKey s) "sk-" = true → (candidateKey s).length < 10 →
        validateApiKey (some s) apiKey =
          .reject 401 "Invalid API key format" "API key is too short") ∧
      (jsStartsWith (candidateKey s) "sk-" = true → 10 ≤ (candidateKey s).length →
          candidateKey s ≠ apiKey →
        validateApiKey (some s) apiKey =
          .reject 401 "Invalid API key" "The provided API key is not valid") ∧
      (validateApiKey (some s) apiKey = .ok ↔
        jsStartsWith (candidateKey s) "sk-" = true ∧ 10 ≤ (candidateKey s).length ∧
          candidateKey s = apiKey) ∧
      (∀ st e m, validateApiKey (some s) apiKey = .reject st e m → st = 401)) := by
  refine ⟨rfl, rfl, fun hs => ?_⟩
  have hfal : jsFalsyStr (some s) = false := by
    simp [jsFalsyStr, hs]
  simp only [validateApiKey, hfal, Bool.false_eq_true, if_false, Option.getD_some]
  refine ⟨?_, ?_, ?_, ?_, ?_⟩
  · intro h; simp [h]
  · intro h hlen; simp [h, hlen]
  · intro h hlen hne
    have hlen' : ¬ (candidateKey s).length < 10 := by omega
    simp [h, hlen', hne]
  · constructor
    · intro h
      by_cases h1 : jsStartsWith (candidateKey s) "sk-"
      · by_cases h2 : (candidateKey s).length < 10
        · simp [h1, h2] at h
        · by_cases h3 : candidateKey s = apiKey
          · exact ⟨h1, by omega, h3⟩
          · simp [h1, h2, h3] at h
      · simp [h1] at h
    · rintro ⟨h1, h2, h3⟩
      have h2' : ¬ (candidateKey s).length < 10 := by omega
      rw [← h3]
      simp [h1, h2']
  · intro st e m h
    by_cases h1 : jsStartsWith (candidateKey s) "sk-"
    · by_cases h2 : (candidateKey s).length < 10
      · simp [h1, h2] at h; omega
      · by_cases h3 : candidateKey s = apiKey
        · rw [← h3] at h
          simp [h1, h2] at h
        · simp [h1, h2, h3] at h; omega
    · simp [h1] at h; omega

/-- C2 witness: the decision at concrete inputs. -/
theorem validateApiKey_decision_order_witness :
    validateApiKey (some "Bearer sk-wrongkey12") "sk-1234567890abcdef1234567890abcdef" =
      .reject 401 "Invalid API key" "The provided API key is not valid" := by
  refine ((validateApiKey_decision_order "Bearer sk-wrongkey12"
    "sk-1234567890abcdef1234567890abcdef").2.2 (by decide)).2.2.1 (by decide) (by decide)
    (by decide)

/-- C9: the length check sits exactly at 10: a candidate (one that reached the
length check, i.e. that starts with "sk-") of length 9 is rejected 401 as too
short, and a candidate of length 10 passes the length check and is decided
solely by byte equality with the configured secret. -/
theorem validateApiKey_length_boundary (s apiKey : String)
    (hsk : jsStartsWith (candidateKey s) "sk-" = true) :
    ((candidateKey s).length = 9 →
      validateApiKey (some s) apiKey =
        .reject 401 "Invalid API key format" "API key is too short") ∧
    ((candidateKey s).length = 10 →
      (validateApiKey (some s) apiKey = .ok ↔ candidateKey s = apiKey) ∧
      (candidateKey s ≠ apiKey →
        validateApiKey (some s) apiKey =
          .reject 401 "Invalid API key" "The provided API key is not valid")) := by
  have hs : s ≠ "" := by
    intro h
    subst h
    simp [candidateKey, jsStartsWith, jsSubstring, charListHasPrefix] at hsk
  have h := (validateApiKey_decision_order s apiKey).2.2 hs
  refine ⟨fun h9 => h.2.1 hsk (by omega), fun h10 => ⟨?_, fun hne => ?_⟩⟩
  · rw [h.2.2.2.1]
    constructor
    · rintro ⟨_, _, h3⟩; exact h3
    · intro heq; exact ⟨hsk, by omega, heq⟩
  · exact h.2.2.1 hsk (by omega) hne

/-- C9 witness: length 9 is rejected as too short; an equal length-10 key is
accepted. -/
theorem validateApiKey_length_boundary_witness :
    validateApiKey (some "sk-abcdef") "sk-1234567890abcdef1234567890abcdef" =
      .reject 401 "Invalid API key format" "API key is too short" ∧
    validateApiKey (some "sk-abcdefg") "sk-abcdefg" = .ok := by
  constructor
  · exact (validateApiKey_length_boundary "sk-abcdef"
      "sk-1234567890abcdef1234567890abcdef" (by decide)).1 (by decide)
  · exact (((validateApiKey_length_boundary "sk-abcdefg" "sk-abcdefg"
      (by decide)).2 (by decide)).1).mpr rfl

/-- C6: for a non-empty allow-list and a resolved client address, admission
accepts exactly when some entry matches the address (plain entries by equality
or textual prefix, CIDR entries by masked 32-bit comparison), rejects with 403
"IP address not allowed" exactly when no entry matches, and in particular
entry 10.0.0.0/8 admits 10.1.2.3 and rejects 11.1.2.3. -/
theorem ipRestriction_allowlist_decision (allowedIps : List String) (clientIp : String)
    (hne : allowedIps ≠ []) (hip : clientIp ≠ "") :
    (Server.ipRestriction allowedIps (some clientIp) = .next ↔
      ∃ e ∈ allowedIps, entryMatches clientIp e = true) ∧
    (Server.ipRestriction allowedIps (some clientIp) = .reject 403 "IP address not allowed" ↔
      ∀ e ∈ allowedIps, entryMatches clientIp e = false) ∧
    Server.ipRestriction ["10.0.0.0/8"] (some "10.1.2.3") = .next ∧
    Server.ipRestriction ["10.0.0.0/8"] (some "11.1.2.3") =
      .reject 403 "IP address not allowed" := by
  have hempty : allowedIps.isEmpty = false := by
    cases allowedIps with
    | nil => exact absurd rfl hne
    | cons a l => rfl
  have hfal : jsFalsyStr (some clientIp) = false := by
    simp [jsFalsyStr, hip]
  have hex : isAllowedIp allowedIps clientIp = true ↔
      ∃ e ∈ allowedIps, entryMatches clientIp e = true := by
    simp [isAllowedIp, List.any_eq_true]
  have hred : Server.ipRestriction allowedIps (some clientIp) =
      if isAllowedIp allowedIps clientIp then Admission.next
      else Admission.reject 403 "IP address not allowed" := by
    simp [Server.ipRestriction, hempty, hfal]
  refine ⟨?_, ?_, by decide, by decide⟩
  · rw [hred]
    by_cases hall : isAllowedIp allowedIps clientIp = true
    · rw [if_pos hall]
      exact iff_of_true rfl (hex.mp hall)
    · rw [if_neg hall]
      exact iff_of_false (fun h => Admission.noConfusion h) (fun hx => hall (hex.mpr hx))
  · rw [hred]
    by_cases hall : isAllowedIp allowedIps clientIp = true
    · rw [if_pos hall]
      refine iff_of_false (fun h => Admission.noConfusion h) (fun hall2 => ?_)
      obtain ⟨e, he, hm⟩ := hex.mp hall
      rw [hall2 e he] at hm
      exact Bool.noConfusion hm
    · rw [if_neg hall]
      refine iff_of_true rfl (fun e he => ?_)
      by_cases hm : entryMatches clientIp e = true
      · exact absurd (hex.mpr ⟨e, he, hm⟩) hall
      · simpa using hm

/-- C6 witness: the concrete 10.0.0.0/8 examples through the theorem. -/
theorem ipRestriction_allowlist_decision_witness :
    Server.ipRestriction ["10.0.0.0/8"] (some "10.1.2.3") = .next ∧
    Server.ipRestriction ["10.0.0.0/8"] (some "11.1.2.3") =
      .reject 403 "IP address not allowed" := by
  have h := ipRestriction_allowlist_decision ["10.0.0.0/8"] "10.1.2.3"
    (by decide) (by decide)
  exact ⟨h.2.2.1, h.2.2.2⟩

/-- C7: the enhanced variant's admission filter accepts a loopback-classified
resolved address without consulting the allow-list, whatever the list holds. -/
theorem ipRestriction_loopback_bypass (allowedIps : List String) (clientIp : String)
    (hloc : isLocalhost clientIp = true) :
    Underpass.ipRestriction allowedIps (some clientIp) = .next := by
  have hip : clientIp ≠ "" := by
    intro h
    subst h
    simp [isLocalhost, jsStartsWith, charListHasPrefix] at hloc
  have hfal : jsFalsyStr (some clientIp) = false := by
    simp [jsFalsyStr, hip]
  by_cases hempty : allowedIps.isEmpty
  · simp [Underpass.ipRestriction, hempty]
  · simp [Underpass.ipRestriction, hempty, hfal, hloc]

/-- C7 witness: 127.0.0.1 is admitted against an allow-list that does not
contain it. -/
theorem ipRestriction_loopback_bypass_witness :
    Underpass.ipRestriction ["10.0.0.0/8"] (some "127.0.0.1") = .next :=
  ipRestriction_loopback_bypass ["10.0.0.0/8"] "127.0.0.1" (by decide)

/-- C10: on a dotted-quad string whose four components are decimal integers at
most 255, ipToNumber computes the unsigned 32-bit value
a * 2^24 + b * 2^16 + c * 2^8 + d, which lies below 2^32. -/
theorem ipToNumber_dotted_quad (ip w x y z : String) (a b c d : Nat)
    (hsplit : splitOnChar '.' ip = [w, x, y, z])
    (hw : parseIntJs w = some (a : Int)) (hx : parseIntJs x = some (b : Int))
    (hy : parseIntJs y = some (c : Int)) (hz : parseIntJs z = some (d : Int))
    (ha : a ≤ 255) (hb : b ≤ 255) (hc : c ≤ 255) (hd : d ≤ 255) :
    ipToNumber ip = a * 2 ^ 24 + b * 2 ^ 16 + c * 2 ^ 8 + d ∧
    ipToNumber ip < 2 ^ 32 := by
  have hmain : ipToNumber ip = a * 16777216 + b * 65536 + c * 256 + d := by
    simp only [ipToNumber, hsplit, List.foldl_cons, List.foldl_nil, hw, hx, hy, hz]
    have s1 : jsAdd (jsShl8 (some 0)) (some (a : Int)) = some (a : Int) := by
      simp only [jsShl8, jsToInt32N, jsAdd, jsToInt32]
      norm_num
    rw [s1]
    have s2 : jsAdd (jsShl8 (some (a : Int))) (some (b : Int)) =
        some ((a : Int) * 256 + b) := by
      simp only [jsShl8, jsToInt32N, jsAdd, jsToInt32, Option.some.injEq]
      omega
    rw [s2]
    have s3 : jsAdd (jsShl8 (some ((a : Int) * 256 + b))) (some (c : Int)) =
        some ((a : Int) * 65536 + b * 256 + c) := by
      simp only [jsShl8, jsToInt32N, jsAdd, jsToInt32, Option.some.injEq]
      omega
    rw [s3]
    have s4 : jsToInt32 ((a : Int) * 65536 + b * 256 + c) =
        (a : Int) * 65536 + b * 256 + c := by
      simp only [jsToInt32]
      omega
    simp only [jsShl8, jsToInt32N, s4, jsAdd, jsToUint32N, jsToInt32]
    omega
  constructor
  · rw [hmain]; norm_num
  · rw [hmain]; norm_num; omega

/-- C10 witness: the value of 10.1.2.3. -/
theorem ipToNumber_dotted_quad_witness :
    ipToNumber "10.1.2.3" = 10 * 2 ^ 24 + 1 * 2 ^ 16 + 2 * 2 ^ 8 + 3 ∧
    ipToNumber "10.1.2.3" < 2 ^ 32 :=
  ipToNumber_dotted_quad "10.1.2.3" "10" "1" "2" "3" 10 1 2 3
    (by decide) (by decide) (by decide) (by decide) (by decide)
    (by decide) (by decide) (by decide) (by decide)

/-- Membership through removeHeader. -/
theorem mem_removeHeader {p : String × String} {n : String}
    {hs : List (String × String)} :
    p ∈ removeHeader n hs ↔ p ∈ hs ∧ lowerStr p.1 ≠ lowerStr n := by
  simp [removeHeader, List.mem_filter]

/-- C1: whatever headers the caller sent, the request forwarded upstream
contains no Authorization header and none of the proxy-identifying request
headers (matched case-insensitively), and its Host header is the host of the
configured upstream URL whenever that URL parses. -/
theorem onProxyReq_scrubs_and_sets_host (url host : String)
    (hs : List (String × String)) (hurl : parseUrlHost url = some host) :
    ((onProxyReqHeaders url hs).any
      (fun p => scrubbedHeaderNames.contains (lowerStr p.1))) = false ∧
    getHeader "host" (onProxyReqHeaders url hs) = some host := by
  have hlowHost : lowerStr "Host" = lowerStr "host" := by decide
  constructor
  · rw [List.any_eq_false]
    intro p hp
    simp only [onProxyReqHeaders, hurl, setHeader, List.mem_append,
      List.mem_singleton, mem_removeHeader] at hp
    rcases hp with ⟨⟨⟨⟨⟨⟨⟨⟨_, hxff⟩, hxfp⟩, hxfh⟩, hxrip⟩, hcfip⟩, hcfray⟩, hauth⟩, _⟩ | hp
    · have e1 : lowerStr "authorization" = "authorization" := by decide
      have e2 : lowerStr "x-forwarded-for" = "x-forwarded-for" := by decide
      have e3 : lowerStr "x-forwarded-proto" = "x-forwarded-proto" := by decide
      have e4 : lowerStr "x-forwarded-host" = "x-forwarded-host" := by decide
      have e5 : lowerStr "x-real-ip" = "x-real-ip" := by decide
      have e6 : lowerStr "cf-connecting-ip" = "cf-connecting-ip" := by decide
      have e7 : lowerStr "cf-ray" = "cf-ray" := by decide
      rw [e1] at hauth
      rw [e2] at hxff
      rw [e3] at hxfp
      rw [e4] at hxfh
      rw [e5] at hxrip
      rw [e6] at hcfip
      rw [e7] at hcfray
      simp [scrubbedHeaderNames, hauth, hxff, hxfp, hxfh, hxrip, hcfip, hcfray]
    · subst hp
      show ¬ scrubbedHeaderNames.contains (lowerStr "Host") = true
      decide
  · simp only [onProxyReqHeaders, hurl, setHeader, getHeader]
    rw [List.find?_append]
    have hnone : (removeHeader "Host"
        (removeHeader "authorization"
          (removeHeader "cf-ray"
            (removeHeader "cf-connecting-ip"
              (removeHeader "x-real-ip"
                (removeHeader "x-forwarded-host"
                  (removeHeader "x-forwarded-proto"
                    (removeHeader "x-forwarded-for" hs)))))))).find?
        (fun p => lowerStr p.1 == lowerStr "host") = none := by
      rw [List.find?_eq_none]
      intro q hq
      rw [mem_removeHeader] at hq
      simp only [beq_iff_eq]
      rw [← hlowHost]
      exact hq.2
    rw [hnone]
    simp [hlowHost]

/-- C1 witness: a concrete request carrying an Authorization header, forwarded
chain headers, and a caller Host, forwarded to the default upstream URL. -/
theorem onProxyReq_scrubs_and_sets_host_witness :
    ((onProxyReqHeaders LM_STUDIO_URL
        [("authorization", "Bearer sk-secretkey123"), ("x-forwarded-for", "1.2.3.4"),
         ("cf-connecting-ip", "5.6.7.8"), ("host", "public.example.com"),
         ("content-type", "application/json")]).any
      (fun p => scrubbedHeaderNames.contains (lowerStr p.1))) = false ∧
    getHeader "host" (onProxyReqHeaders LM_STUDIO_URL
        [("authorization", "Bearer sk-secretkey123"), ("x-forwarded-for", "1.2.3.4"),
         ("cf-connecting-ip", "5.6.7.8"), ("host", "public.example.com"),
         ("content-type", "application/json")]) = some "192.168.50.193:5595" :=
  onProxyReq_scrubs_and_sets_host LM_STUDIO_URL "192.168.50.193:5595" _ (by decide)

/-- C4: a response with status in the inclusive 520 to 530 range has its whole
body tested against the edge error markers; on a match the caller gets 502
with the JSON object holding error "Bad Gateway", a message that for 524
differs from the message of every other code in the range, details, and
troubleshooting; with no match the original status, headers, and body pass
through unmodified. -/
theorem onProxyRes_edge_interception (s : Nat) (hdrs : List (String × String))
    (body : String) (h1 : 520 ≤ s) (h2 : s ≤ 530) :
    (isCloudflareErrorBody body = true →
      onProxyRes s hdrs body =
        (502, [("Content-Type", "application/json")],
          .json { error := "Bad Gateway",
                  message := cfErrorMessage s,
                  details := some ("Cloudflare error " ++ toString s ++ ": " ++
                    getCloudflareErrorDescription s),
                  troubleshooting := cfTroubleshooting s })) ∧
    (isCloudflareErrorBody body = false → onProxyRes s hdrs body = (s, hdrs, .raw body)) ∧
    (s ≠ 524 → cfErrorMessage 524 ≠ cfErrorMessage s) := by
  refine ⟨fun hm => ?_, fun hm => ?_, fun hne => ?_⟩
  · simp [onProxyRes, h1, h2, hm]
  · simp [onProxyRes, h1, h2, hm]
  · simp only [cfErrorMessage, if_pos rfl, if_neg hne]
    decide

/-- C4 witness: the spec's scenario, a 522 whose body mentions Cloudflare. -/
theorem onProxyRes_edge_interception_witness :
    onProxyRes 522 [("content-type", "text/html")] "<html>Cloudflare</html>" =
      (502, [("Content-Type", "application/json")],
        .json { error := "Bad Gateway",
                message := "Cloudflare tunnel cannot reach the origin server",
                details := some "Cloudflare error 522: Connection Timed Out",
                troubleshooting := cfTroubleshooting 522 }) := by
  have h := (onProxyRes_edge_interception 522 [("content-type", "text/html")]
    "<html>Cloudflare</html>" (by decide) (by decide)).1 (by decide)
  rw [h]
  decide

/-- C8: a response whose status lies outside the 520 to 530 edge range keeps
its status, keeps its body byte for byte, and keeps every header except the
deleted proxy-identifying response headers. -/
theorem onProxyRes_passthrough_outside_edge_range (s : Nat)
    (hdrs : List (String × String)) (body : String) (hrange : s < 520 ∨ 530 < s) :
    onProxyRes s hdrs body =
      (s, hdrs.filter (fun p => !(responseDeletedKeys.contains p.1)), .raw body) := by
  have hcond : ¬ (520 ≤ s ∧ s ≤ 530) := by omega
  have hfilter : onProxyResHeaders hdrs =
      hdrs.filter (fun p => !(responseDeletedKeys.contains p.1)) := by
    simp only [onProxyResHeaders, deleteKey, List.filter_filter]
    refine List.filter_congr ?_
    intro p _
    by_cases e1 : p.1 = "x-powered-by"
    · simp [e1, responseDeletedKeys]
    · by_cases e2 : p.1 = "X-Powered-By"
      · simp [e1, e2, responseDeletedKeys]
      · by_cases e3 : p.1 = "x-forwarded-for"
        · simp [e1, e2, e3, responseDeletedKeys]
        · by_cases e4 : p.1 = "x-forwarded-proto"
          · simp [e1, e2, e3, e4, responseDeletedKeys]
          · by_cases e5 : p.1 = "x-forwarded-host"
            · simp [e1, e2, e3, e4, e5, responseDeletedKeys]
            · by_cases e6 : p.1 = "via"
              · simp [e1, e2, e3, e4, e5, e6, responseDeletedKeys]
              · by_cases e7 : p.1 = "Via"
                · simp [e1, e2, e3, e4, e5, e6, e7, responseDeletedKeys]
                · simp [e1, e2, e3, e4, e5, e6, e7, responseDeletedKeys]
  simp [onProxyRes, hcond, hfilter]

/-- C8 witness: a 200 streaming response with an X-Powered-By and a Via header
alongside ordinary headers. -/
theorem onProxyRes_passthrough_outside_edge_range_witness :
    onProxyRes 200
      [("content-type", "application/json"), ("x-powered-by", "Express"),
       ("via", "1.1 proxy"), ("transfer-encoding", "chunked")]
      "data: token" =
      (200,
       [("content-type", "application/json"), ("transfer-encoding", "chunked")],
       .raw "data: token") := by
  have h := onProxyRes_passthrough_outside_edge_range 200
    [("content-type", "application/json"), ("x-powered-by", "Express"),
     ("via", "1.1 proxy"), ("transfer-encoding", "chunked")]
    "data: token" (Or.inl (by decide))
  rw [h]
  decide

/-- C5: transport failures are classified by the error code table: a
timeout-classified error (ETIMEDOUT, connection reset, or a message naming a
timeout) yields 504 Gateway Timeout with a troubleshooting payload; a
connection-refused error yields 502 Bad Gateway with a troubleshooting
payload naming the configured upstream URL; every other error yields 502 Bad
Gateway carrying the raw error code and message. -/
theorem onError_transport_classification (code : Option String) (msg : String) :
    ((code = some "ETIMEDOUT" ∨ code = some "ECONNRESET" ∨
        jsIncludes msg "timeout" = true) →
      (onError code msg).1 = 504 ∧
      (onError code msg).2.error = "Gateway Timeout" ∧
      (onError code msg).2.details = some msg ∧
      (onError code msg).2.troubleshooting ≠ []) ∧
    (¬ (code = some "ETIMEDOUT" ∨ code = some "ECONNRESET" ∨
        jsIncludes msg "timeout" = true) →
      code = some "ECONNREFUSED" →
      (onError code msg).1 = 502 ∧
      (onError code msg).2.error = "Bad Gateway" ∧
      (onError code msg).2.details = some msg ∧
      ((onError code msg).2.troubleshooting.any
        (fun e => jsIncludes e.2 LM_STUDIO_URL)) = true) ∧
    (¬ (code = some "ETIMEDOUT" ∨ code = some "ECONNRESET" ∨
        jsIncludes msg "timeout" = true) →
      code ≠ some "ECONNREFUSED" →
      (onError code msg).1 = 502 ∧
      (onError code msg).2.error = "Bad Gateway" ∧
      (onError code msg).2.details = some msg ∧
      (onError code msg).2.errorCode = code) := by
  refine ⟨fun ht => ?_, fun ht hr => ?_, fun ht hr => ?_⟩
  · rcases ht with h | h | h <;> simp [onError, h]
  · push_neg at ht
    have hmsg : jsIncludes msg "timeout" = false := by
      simpa using ht.2.2
    subst hr
    simp [onError, hmsg]
    decide
  · push_neg at ht
    have hmsg : jsIncludes msg "timeout" = false := by
      simpa using ht.2.2
    have hb1 : (code == some "ETIMEDOUT") = false := beq_eq_false_iff_ne.mpr ht.1
    have hb2 : (code == some "ECONNRESET") = false := beq_eq_false_iff_ne.mpr ht.2.1
    have hb3 : (code == some "ECONNREFUSED") = false := beq_eq_false_iff_ne.mpr hr
    simp [onError, hmsg, hb1, hb2, hb3]

/-- C5 witness: the spec's scenario, a refused upstream connection. -/
theorem onError_transport_classification_witness :
    (onError (some "ECONNREFUSED") "connect ECONNREFUSED 192.168.50.193:5595").1 = 502 ∧
    (onError (some "ECONNREFUSED") "connect ECONNREFUSED 192.168.50.193:5595").2.error =
      "Bad Gateway" ∧
    (onError (some "ECONNREFUSED") "connect ECONNREFUSED 192.168.50.193:5595").2.details =
      some "connect ECONNREFUSED 192.168.50.193:5595" ∧
    ((onError (some "ECONNREFUSED")
        "connect ECONNREFUSED 192.168.50.193:5595").2.troubleshooting.any
      (fun e => jsIncludes e.2 LM_STUDIO_URL)) = true :=
  (onError_transport_classification (some "ECONNREFUSED")
    "connect ECONNREFUSED 192.168.50.193:5595").2.1 (by decide) rfl

/-- C3: for every non-health request the stages run in the fixed order
admission, credential, forwarding; a rejection at any stage ends the trace at
that stage, the forwarding stage never runs after a rejection (no upstream
contact), and the request is forwarded exactly when both guards accept. -/
theorem pipeline_order_short_circuit (allowedIps : List String) (apiKey : String)
    (r : Req) (hnh : (r.method == "GET" && r.path == "/health") = false) :
    ((Server.handle allowedIps apiKey r).2).isPrefixOf
      [Stage.admission, Stage.credential, Stage.forwarding] = true ∧
    ((Server.handle allowedIps apiKey r).1 = .forwarded ↔
      (Server.handle allowedIps apiKey r).2 =
        [Stage.admission, Stage.credential, Stage.forwarding]) ∧
    (Server.ipRestriction allowedIps (resolveClientIp r) ≠ .next →
      (Server.handle allowedIps apiKey r).2 = [Stage.admission] ∧
      Stage.forwarding ∉ (Server.handle allowedIps apiKey r).2 ∧
      (Server.handle allowedIps apiKey r).1 ≠ .forwarded) ∧
    (Server.ipRestriction allowedIps (resolveClientIp r) = .next →
      validateApiKey r.authorization apiKey ≠ .ok →
      (Server.handle allowedIps apiKey r).2 = [Stage.admission, Stage.credential] ∧
      Stage.forwarding ∉ (Server.handle allowedIps apiKey r).2 ∧
      (Server.handle allowedIps apiKey r).1 ≠ .forwarded) ∧
    (Server.ipRestriction allowedIps (resolveClientIp r) = .next →
      validateApiKey r.authorization apiKey = .ok →
      (Server.handle allowedIps apiKey r).2 =
        [Stage.admission, Stage.credential, Stage.forwarding] ∧
      (Server.handle allowedIps apiKey r).1 = .forwarded) := by
  cases hir : Server.ipRestriction allowedIps (resolveClientIp r) with
  | reject st er =>
    simp [Server.handle, hnh, hir]
    decide
  | next =>
    cases hv : validateApiKey r.authorization apiKey with
    | reject st er m =>
      simp [Server.handle, hnh, hir, hv]
      decide
    | ok =>
      simp [Server.handle, hnh, hir, hv]
      decide

/-- C3 witness: with allow-list 10.0.0.0/8 a caller resolved to 9.9.9.9 is
rejected at admission: only the admission stage ran and nothing was
forwarded. -/
theorem pipeline_order_short_circuit_witness :
    (Server.handle ["10.0.0.0/8"] "sk-1234567890"
        { method := "POST", path := "/v1/chat/completions",
          cfConnectingIp := some "9.9.9.9", reqIp := none, xForwardedFor := none,
          xRealIp := none, connectionRemoteAddress := none,
          socketRemoteAddress := none, authorization := none }).2 =
      [Stage.admission] ∧
    Stage.forwarding ∉ (Server.handle ["10.0.0.0/8"] "sk-1234567890"
        { method := "POST", path := "/v1/chat/completions",
          cfConnectingIp := some "9.9.9.9", reqIp := none, xForwardedFor := none,
          xRealIp := none, connectionRemoteAddress := none,
          socketRemoteAddress := none, authorization := none }).2 ∧
    (Server.handle ["10.0.0.0/8"] "sk-1234567890"
        { method := "POST", path := "/v1/chat/completions",
          cfConnectingIp := some "9.9.9.9", reqIp := none, xForwardedFor := none,
          xRealIp := none, connectionRemoteAddress := none,
          socketRemoteAddress := none, authorization := none }).1 ≠ .forwarded :=
  (pipeline_order_short_circuit ["10.0.0.0/8"] "sk-1234567890"
    { method := "POST", path := "/v1/chat/completions",
      cfConnectingIp := some "9.9.9.9", reqIp := none, xForwardedFor := none,
      xRealIp := none, connectionRemoteAddress := none,
      socketRemoteAddress := none, authorization := none }
    (by decide)).2.2.1 (by decide)
